import Mathlib

/-!
Verification of the lease-analysis backend (qiyoga-backend-mvp).

Shallow embedding of the Python source:
* `routes/lease_routes.py` — entitlement check, `/analyze` gating and store
  updates, `/full-report`, sliding-window rate limiter;
* `routes/billing_routes.py` — checkout short-circuit, webhook grant;
* `services/paddle.py` — HMAC-SHA256 webhook signature verification;
* `utils/text_parser.py` — noise filter / high-risk extraction, summary
  validation;
* `config.py` — test-user bypass.

Conventions: Python `datetime` values are modelled as `Int` seconds (ISO
strings in the stores are in bijection with the instants they denote, and the
code only ever compares, subtracts, and adds fixed offsets to them, so the
embedding carries the instant itself). Python dicts keyed by strings are
modelled as functions `String → Option _`. A Python function that can raise
on some inputs is modelled with an `Option` result, `none` standing for the
raised exception.
-/

set_option maxRecDepth 4000

/-! ## Entitlement store (`USER_ACCESS_STORE`)

A record in `USER_ACCESS_STORE` is a dict that may carry `paid_at`,
`expires_at` (ISO strings) and `analysis_ids`.  The webhook grant writes all
three; the `/analyze` consume path creates records holding only
`analysis_ids`, so `paid_at`/`expires_at` are optional fields here.
`analysis_ids` is read everywhere with `.get("analysis_ids", [])`, hence a
total field defaulting to `[]`. -/

structure AccessRecord where
  paid_at : Option Int := none
  expires_at : Option Int := none
  analysis_ids : List String := []
deriving DecidableEq, Repr

abbrev AccessStore := String → Option AccessRecord

/-- `FULL_ANALYSIS_LEASE_LIMIT = 5` (lease_routes.py). -/
def FULL_ANALYSIS_LEASE_LIMIT : Nat := 5

/-- `FULL_ANALYSIS_ACCESS_DURATION = timedelta(days=30)`, in seconds. -/
def FULL_ANALYSIS_ACCESS_DURATION : Int := 30 * 86400

/-- Result dict of `check_user_access` (lease_routes.py).  Fields that a given
branch does not put in the dict are `none`.  The fixed bilingual display
`message` accompanying `reason = "lease_limit_reached"` is constant text and
is not carried here. -/
structure CheckResult where
  has_access : Bool
  reason : Option String := none
  expires_at : Option Int := none
  days_remaining : Option Int := none
  analyses_count : Option Nat := none
  remaining_analyses : Option Nat := none
deriving DecidableEq, Repr

/-- `check_user_access(user_id)` (lease_routes.py lines 558-592).  The
function reads `access["expires_at"]` unconditionally once the user is in the
store; a record without that key raises `KeyError`, modelled as `none`. -/
def check_user_access (store : AccessStore) (user_id : String) (now : Int) :
    Option CheckResult :=
  match store user_id with
  | none => some { has_access := false }
  | some access =>
    match access.expires_at with
    | none => none
    | some expires_at =>
      if expires_at ≤ now then
        some { has_access := false }
      else
        let analyses_count := access.analysis_ids.length
        if FULL_ANALYSIS_LEASE_LIMIT ≤ analyses_count then
          some { has_access := false, reason := some "lease_limit_reached" }
        else
          some { has_access := true
                 expires_at := some expires_at
                 days_remaining := some ((expires_at - now) / 86400)
                 analyses_count := some analyses_count
                 remaining_analyses :=
                   some (FULL_ANALYSIS_LEASE_LIMIT - analyses_count) }

/-- C1: for a user with an entitlement record (carrying `expires_at`, as every
webhook-granted record does), `check_user_access` yields
`has_access = false` with `reason = "lease_limit_reached"` exactly when
`now < expires_at` and at least 5 analysis ids are consumed; yields
`has_access = false` with no `reason` when `now ≥ expires_at`, likewise when
the user has no record; and otherwise yields `has_access = true` with
`analyses_count` the list length and `remaining_analyses = 5 - analyses_count`. -/
theorem claim_C1_check_user_access (store : AccessStore) (user_id : String)
    (now : Int) :
    (∀ rec e, store user_id = some rec → rec.expires_at = some e →
      ((check_user_access store user_id now =
          some { has_access := false, reason := some "lease_limit_reached" }) ↔
        (now < e ∧ 5 ≤ rec.analysis_ids.length)) ∧
      (e ≤ now →
        check_user_access store user_id now = some { has_access := false }) ∧
      (now < e → rec.analysis_ids.length < 5 →
        check_user_access store user_id now =
          some { has_access := true
                 expires_at := some e
                 days_remaining := some ((e - now) / 86400)
                 analyses_count := some rec.analysis_ids.length
                 remaining_analyses := some (5 - rec.analysis_ids.length) })) ∧
    (store user_id = none →
      check_user_access store user_id now = some { has_access := false }) := by
  constructor
  · intro rec e hrec hexp
    simp only [check_user_access, hrec, hexp, FULL_ANALYSIS_LEASE_LIMIT]
    refine ⟨?_, ?_, ?_⟩
    · constructor
      · intro h
        split at h
        · simp at h
        · split at h
          · constructor
            · omega
            · next h2 => exact h2
          · simp at h
      · rintro ⟨h1, h2⟩
        rw [if_neg (by omega), if_pos h2]
    · intro h
      rw [if_pos h]
    · intro h1 h2
      rw [if_neg (by omega), if_neg (by omega)]
  · intro h
    simp only [check_user_access, h]

/-- A concrete unexpired, quota-exhausted entitlement record. -/
def c1ExhaustedRecord : AccessRecord :=
  { paid_at := some 0, expires_at := some 100
    analysis_ids := ["a", "b", "c", "d", "e"] }

/-- A one-user store holding `c1ExhaustedRecord`. -/
def c1Store : AccessStore :=
  fun u => if u = "u1" then some c1ExhaustedRecord else none

/-- Concrete instance of C1: an unexpired record with 5 consumed ids is
reported with `reason = "lease_limit_reached"`, and an expired one without a
reason. -/
theorem claim_C1_check_user_access_witness :
    (check_user_access c1Store "u1" 50 =
      some { has_access := false, reason := some "lease_limit_reached" }) ∧
    (check_user_access c1Store "u1" 100 = some { has_access := false }) := by
  constructor
  · exact ((claim_C1_check_user_access c1Store "u1" 50).1 c1ExhaustedRecord 100
      (by decide) rfl).1.mpr (by decide)
  · exact ((claim_C1_check_user_access c1Store "u1" 100).1 c1ExhaustedRecord 100
      (by decide) rfl).2.1 (by decide)

/-! ## Payment webhook grant (`billing_routes.py`, `paddle_webhook`) -/

/-- `PAYMENT_SUCCESS_EVENTS` (services/paddle.py). -/
def PAYMENT_SUCCESS_EVENTS : List String :=
  ["transaction.completed", "transaction.billed", "subscription.activated"]

/-- The `USER_ACCESS_STORE` update performed by `paddle_webhook` on a
verified event (billing_routes.py lines 180-194): for a success event with a
truthy `user_id`, overwrite the user's record with fresh `paid_at` /
`expires_at` (now + 30 days) while carrying over any existing
`analysis_ids`; otherwise leave the store alone. -/
def paddle_webhook_update (store : AccessStore) (event_type : String)
    (user_id : Option String) (now : Int) : AccessStore :=
  match user_id with
  | none => store
  | some uid =>
    if event_type ∈ PAYMENT_SUCCESS_EVENTS ∧ uid ≠ "" then
      fun u =>
        if u = uid then
          some { paid_at := some now
                 expires_at := some (now + FULL_ANALYSIS_ACCESS_DURATION)
                 analysis_ids :=
                   match store uid with
                   | some rec => rec.analysis_ids
                   | none => [] }
        else store u
    else store

/-- C3: a payment-success webhook for a user sets that user's record's
`paid_at` to now and `expires_at` to now + 30 days, preserves the consumed
analysis-id list exactly (the old list if a record existed, `[]` otherwise),
and modifies no other user's record. -/
theorem claim_C3_webhook_grant (store : AccessStore) (event_type : String)
    (uid : String) (now : Int)
    (hev : event_type ∈ PAYMENT_SUCCESS_EVENTS) (huid : uid ≠ "") :
    (paddle_webhook_update store event_type (some uid) now uid =
      some { paid_at := some now
             expires_at := some (now + 30 * 86400)
             analysis_ids :=
               match store uid with
               | some rec => rec.analysis_ids
               | none => [] }) ∧
    (∀ u, u ≠ uid →
      paddle_webhook_update store event_type (some uid) now u = store u) := by
  constructor
  · simp only [paddle_webhook_update, if_pos (And.intro hev huid), if_pos rfl]
    rfl
  · intro u hu
    simp only [paddle_webhook_update, if_pos (And.intro hev huid), if_neg hu]

/-- Concrete instance of C3: granting on an empty store creates a fresh
30-day record with an empty id list, on a store with a prior record keeps its
ids, and leaves an unrelated user untouched. -/
theorem claim_C3_webhook_grant_witness :
    (paddle_webhook_update (fun _ => none) "transaction.completed"
        (some "u1") 1000 "u1" =
      some { paid_at := some 1000, expires_at := some 2593000
             analysis_ids := [] }) ∧
    (paddle_webhook_update c1Store "transaction.completed"
        (some "u1") 1000 "u1" =
      some { paid_at := some 1000, expires_at := some 2593000
             analysis_ids := ["a", "b", "c", "d", "e"] }) ∧
    (paddle_webhook_update c1Store "transaction.completed"
        (some "u1") 1000 "u2" = none) := by
  refine ⟨?_, ?_, ?_⟩
  · exact (claim_C3_webhook_grant (fun _ => none) "transaction.completed"
      "u1" 1000 (by decide) (by decide)).1
  · exact (claim_C3_webhook_grant c1Store "transaction.completed"
      "u1" 1000 (by decide) (by decide)).1
  · exact (claim_C3_webhook_grant c1Store "transaction.completed"
      "u1" 1000 (by decide) (by decide)).2 "u2" (by decide)

/-! ## Checkout creation (`billing_routes.py`, `create_checkout_session`) -/

/-- Outcome of `POST /create-checkout`: either the early return
`CheckoutResponse(success=True, checkout_url=None, transaction_id=None)` with
no call to the payment provider, or a call to `create_checkout_for_user`
(whose network result is out of scope). -/
inductive CheckoutOutcome where
  | alreadyActive : CheckoutOutcome
  | providerCheckout : CheckoutOutcome
deriving DecidableEq, Repr

/-- `create_checkout_session` control flow (billing_routes.py lines 32-63):
if the user has a record containing `expires_at` strictly in the future, the
endpoint short-circuits; otherwise it calls the payment provider. -/
def create_checkout_session (store : AccessStore) (user_id : String)
    (now : Int) : CheckoutOutcome :=
  match store user_id with
  | some access =>
    match access.expires_at with
    | some expires_at =>
      if now < expires_at then .alreadyActive else .providerCheckout
    | none => .providerCheckout
  | none => .providerCheckout

/-- C9: whenever the user's record holds an `expires_at` strictly later than
now — regardless of the consumed-id list, in particular with the 5-analysis
quota exhausted — `/create-checkout` returns the success/None/None response
and never reaches the payment provider. -/
theorem claim_C9_checkout_short_circuit (store : AccessStore)
    (user_id : String) (now : Int) (rec : AccessRecord) (e : Int)
    (hrec : store user_id = some rec) (hexp : rec.expires_at = some e)
    (hnow : now < e) :
    create_checkout_session store user_id now = .alreadyActive := by
  simp only [create_checkout_session, hrec, hexp, if_pos hnow]

/-- Concrete instance of C9: a user with an unexpired record whose quota is
already exhausted (5 consumed ids) still gets the short-circuit response. -/
theorem claim_C9_checkout_short_circuit_witness :
    create_checkout_session c1Store "u1" 50 = .alreadyActive :=
  claim_C9_checkout_short_circuit c1Store "u1" 50 c1ExhaustedRecord 100
    (by decide) rfl (by decide)

/-! ## Test-user bypass (`config.py`, `Settings.should_bypass_test_user`) -/

/-- The two settings `should_bypass_test_user` consults. -/
structure Settings where
  TEST_USER_BYPASS : Bool
  TEST_USER_IDS : String
deriving DecidableEq, Repr

/-- The allowlist derived from `TEST_USER_IDS`: split on commas, strip each
entry, drop empties (config.py). -/
def allowedTestIds (s : Settings) : List String :=
  ((s.TEST_USER_IDS.splitOn ",").map String.trim).filter (fun uid => uid ≠ "")

/-- Python `str.startswith`: the pattern's characters are a prefix of the
string's characters. -/
def startsWithB (s pre : String) : Bool :=
  pre.toList.isPrefixOf s.toList

/-- `Settings.should_bypass_test_user` (config.py): bypass is off unless
`TEST_USER_BYPASS` is set, and then covers ids with the `test_user` prefix or
ids enumerated in `TEST_USER_IDS`. -/
def should_bypass_test_user (s : Settings) (user_id : String) : Bool :=
  if !s.TEST_USER_BYPASS then false
  else if startsWithB user_id "test_user" then true
  else user_id ∈ allowedTestIds s

/-! ## `/analyze` gate and consume (`lease_routes.py`, `analyze_lease`)

Only the part of the endpoint from the access gate onward (lines 692-747)
touches `ANALYSIS_STORE` / `USER_ACCESS_STORE`; the upload / OCR / LLM stages
before it operate on temporary files and network adapters.  The stored
analysis carries full text, key info, clauses etc.; for the store claims only
the owning `user_id` matters, so the record is modelled by that field. -/

structure StoredAnalysis where
  user_id : String
deriving DecidableEq, Repr

abbrev AnalysisStore := String → Option StoredAnalysis

/-- Observable outcome of `POST /analyze` past the gate. -/
inductive AnalyzeOutcome where
  /-- 403 `ACCESS_DENIED` with the quota-exhausted bilingual message. -/
  | deniedLimit : AnalyzeOutcome
  /-- 403 `ACCESS_DENIED` with the generic pay-or-login bilingual message. -/
  | deniedNoAccess : AnalyzeOutcome
  /-- The generic `except Exception` handler's `success: false` body (reached
  when `check_user_access` raises). -/
  | errorResp : AnalyzeOutcome
  /-- 200 body with the new analysis id and `has_full_access`. -/
  | ok (analysis_id : String) (has_full_access : Bool) : AnalyzeOutcome
deriving DecidableEq, Repr

/-- Lines 722-742 of `analyze_lease`: store the new analysis under a fresh
id, create `{"analysis_ids": []}` for the user if absent (note: no
`expires_at`), and append the id if not already present. -/
def store_analysis (astore : AnalysisStore) (ustore : AccessStore)
    (user_id analysis_id : String) : AnalysisStore × AccessStore :=
  let astore' : AnalysisStore :=
    fun i => if i = analysis_id then some { user_id := user_id } else astore i
  let rec0 : AccessRecord :=
    match ustore user_id with
    | some r => r
    | none => { analysis_ids := [] }
  let rec1 : AccessRecord :=
    if analysis_id ∈ rec0.analysis_ids then rec0
    else { rec0 with analysis_ids := rec0.analysis_ids ++ [analysis_id] }
  (astore', fun u => if u = user_id then some rec1 else ustore u)

/-- `analyze_lease` from the access gate onward (lease_routes.py lines
692-747): bypass users skip the check; otherwise a failed check returns 403
before any store is touched, the reason `"lease_limit_reached"` selecting the
quota message; a check that raises lands in the generic handler.  On access,
the analysis is stored and consumed. -/
def analyze_lease_gate (cfg : Settings) (astore : AnalysisStore)
    (ustore : AccessStore) (user_id : String) (now : Int)
    (analysis_id : String) : AnalyzeOutcome × AnalysisStore × AccessStore :=
  if should_bypass_test_user cfg user_id then
    let s := store_analysis astore ustore user_id analysis_id
    (.ok analysis_id true, s.1, s.2)
  else
    match check_user_access ustore user_id now with
    | none => (.errorResp, astore, ustore)
    | some access_info =>
      if access_info.has_access then
        let s := store_analysis astore ustore user_id analysis_id
        (.ok analysis_id true, s.1, s.2)
      else
        if access_info.reason = some "lease_limit_reached" then
          (.deniedLimit, astore, ustore)
        else
          (.deniedNoAccess, astore, ustore)

/-- C2: a non-bypass user whose access check fails (no record, expired, or
quota exhausted — i.e. `check_user_access` returns `has_access = false`) gets
a 403 access-denied response from `/analyze`, and the denial leaves both the
analysis store and the entitlement store exactly as they were. -/
theorem claim_C2_denied_analyze_frame (cfg : Settings) (astore : AnalysisStore)
    (ustore : AccessStore) (user_id : String) (now : Int)
    (analysis_id : String) (info : CheckResult)
    (hbypass : should_bypass_test_user cfg user_id = false)
    (hcheck : check_user_access ustore user_id now = some info)
    (hdenied : info.has_access = false) :
    (analyze_lease_gate cfg astore ustore user_id now analysis_id =
        (.deniedLimit, astore, ustore) ∨
      analyze_lease_gate cfg astore ustore user_id now analysis_id =
        (.deniedNoAccess, astore, ustore)) := by
  simp only [analyze_lease_gate, hbypass, hcheck, hdenied, Bool.false_eq_true,
    if_false]
  split
  · exact Or.inl rfl
  · exact Or.inr rfl

/-- Concrete instance of C2: with the bypass disabled, a first-time user (no
record) is denied and the two stores come back unchanged. -/
theorem claim_C2_denied_analyze_frame_witness :
    (analyze_lease_gate { TEST_USER_BYPASS := false, TEST_USER_IDS := "" }
        (fun _ => none) (fun _ => none) "newuser" 0 "aid1" =
      (.deniedLimit, fun _ => none, fun _ => none) ∨
    analyze_lease_gate { TEST_USER_BYPASS := false, TEST_USER_IDS := "" }
        (fun _ => none) (fun _ => none) "newuser" 0 "aid1" =
      (.deniedNoAccess, fun _ => none, fun _ => none)) :=
  claim_C2_denied_analyze_frame
    { TEST_USER_BYPASS := false, TEST_USER_IDS := "" }
    (fun _ => none) (fun _ => none) "newuser" 0 "aid1"
    { has_access := false } rfl rfl rfl

/-- C10: a first `/analyze` by a test-bypass user with no prior record stores
an entitlement record holding only the analysis-id list — no `expires_at` —
and `check_user_access` on the resulting store raises `KeyError` (modelled as
`none`) for that user at every time, instead of returning a result. -/
theorem claim_C10_check_partial_on_reachable (cfg : Settings)
    (astore : AnalysisStore) (ustore : AccessStore) (user_id : String)
    (now : Int) (analysis_id : String)
    (hbypass : should_bypass_test_user cfg user_id = true)
    (hnorec : ustore user_id = none) :
    (analyze_lease_gate cfg astore ustore user_id now analysis_id).2.2 user_id =
      some { paid_at := none, expires_at := none
             analysis_ids := [analysis_id] } ∧
    (∀ now2 : Int,
      check_user_access
        (analyze_lease_gate cfg astore ustore user_id now analysis_id).2.2
        user_id now2 = none) := by
  have hstore :
      (analyze_lease_gate cfg astore ustore user_id now analysis_id).2.2 user_id =
        some { paid_at := none, expires_at := none
               analysis_ids := [analysis_id] } := by
    simp only [analyze_lease_gate, hbypass, if_true, store_analysis, hnorec,
      List.not_mem_nil, if_neg, if_pos rfl]
    rfl
  refine ⟨hstore, fun now2 => ?_⟩
  simp only [check_user_access, hstore]

/-- Concrete instance of C10: with `TEST_USER_BYPASS` on, a `test_user`-prefixed
id with no record ends up with an `expires_at`-less record, on which the
entitlement check raises. -/
theorem claim_C10_check_partial_on_reachable_witness :
    (analyze_lease_gate { TEST_USER_BYPASS := true, TEST_USER_IDS := "" }
        (fun _ => none) (fun _ => none) "test_user_7" 0 "aid1").2.2 "test_user_7" =
      some { paid_at := none, expires_at := none, analysis_ids := ["aid1"] } ∧
    check_user_access
      (analyze_lease_gate { TEST_USER_BYPASS := true, TEST_USER_IDS := "" }
        (fun _ => none) (fun _ => none) "test_user_7" 0 "aid1").2.2
      "test_user_7" 12345 = none := by
  have h := claim_C10_check_partial_on_reachable
    { TEST_USER_BYPASS := true, TEST_USER_IDS := "" }
    (fun _ => none) (fun _ => none) "test_user_7" 0 "aid1" (by decide) rfl
  exact ⟨h.1, h.2 12345⟩

/-! ## Full report (`lease_routes.py`, `get_full_report`) -/

/-- Observable outcome of `GET /full-report`. -/
inductive ReportOutcome where
  /-- 404: unknown analysis id. -/
  | notFound : ReportOutcome
  /-- 403: analysis owned by another user and the requester has no access. -/
  | denied : ReportOutcome
  /-- 500: the generic handler (reached when `check_user_access` raises while
  building the response). -/
  | err500 : ReportOutcome
  /-- 200 `success = true` body; carries the `has_full_access` flag that the
  response recomputes from `check_user_access`. -/
  | ok (has_full_access : Bool) : ReportOutcome
deriving DecidableEq, Repr

/-- `get_full_report` (lease_routes.py lines 808-859): 404 on unknown id; for
a foreign analysis the entitlement check gates with 403; the success body
always evaluates `check_user_access(user_id)["has_access"]` for its
`has_full_access` field, so a raising check surfaces as the 500 handler even
for the owner. -/
def get_full_report (astore : AnalysisStore) (ustore : AccessStore)
    (analysis_id user_id : String) (now : Int) : ReportOutcome :=
  match astore analysis_id with
  | none => .notFound
  | some analysis =>
    if analysis.user_id ≠ user_id then
      match check_user_access ustore user_id now with
      | none => .err500
      | some access_info =>
        if !access_info.has_access then .denied
        else
          match check_user_access ustore user_id now with
          | none => .err500
          | some info2 => .ok info2.has_access
    else
      match check_user_access ustore user_id now with
      | none => .err500
      | some info2 => .ok info2.has_access

/-- C10's reachable store state refutes C8 as stated: the owner of a stored
analysis whose own entitlement record lacks `expires_at` (exactly what a
bypass-user `/analyze` creates) does not get a `success = true` report — the
entitlement check is evaluated for the response's `has_full_access` field,
raises, and the endpoint 500s.  So an entitlement check *is* applied to the
owner. -/
theorem claim_C8_counterexample :
    get_full_report
      (fun i => if i = "a1" then some { user_id := "u1" } else none)
      (fun u => if u = "u1" then
        some { paid_at := none, expires_at := none, analysis_ids := ["a1"] }
        else none)
      "a1" "u1" 0 = .err500 ∧
    get_full_report
      (fun i => if i = "a1" then some { user_id := "u1" } else none)
      (fun u => if u = "u1" then
        some { paid_at := none, expires_at := none, analysis_ids := ["a1"] }
        else none)
      "a1" "u1" 0 ≠ .ok true ∧
    get_full_report
      (fun i => if i = "a1" then some { user_id := "u1" } else none)
      (fun u => if u = "u1" then
        some { paid_at := none, expires_at := none, analysis_ids := ["a1"] }
        else none)
      "a1" "u1" 0 ≠ .ok false := by
  refine ⟨by decide, by decide, by decide⟩

/-- C8 (amended): for a stored analysis requested by its owner, whenever the
owner's entitlement check returns (it does for every owner with no record, an
expired pass, or an exhausted quota), the endpoint returns the full report
with `success = true` — the check's verdict is never used to gate the owner,
only copied into the response's `has_full_access` field; owners whose record
lacks `expires_at` instead hit the 500 handler, and the check gates access
only when the requesting user differs from the stored owner. -/
theorem claim_C8_owner_report (astore : AnalysisStore) (ustore : AccessStore)
    (analysis_id user_id : String) (now : Int) (analysis : StoredAnalysis)
    (info : CheckResult)
    (hfound : astore analysis_id = some analysis)
    (howner : analysis.user_id = user_id)
    (hcheck : check_user_access ustore user_id now = some info) :
    get_full_report astore ustore analysis_id user_id now =
      .ok info.has_access := by
  simp only [get_full_report, hfound, howner, ne_eq, not_true_eq_false,
    if_false, hcheck, ite_self]

/-- Concrete instance of amended C8: the owner whose pass is expired and
whose quota is exhausted still receives the report (`success = true`, with
`has_full_access = false`). -/
theorem claim_C8_owner_report_witness :
    get_full_report
      (fun i => if i = "a1" then some { user_id := "u1" } else none)
      c1Store "a1" "u1" 100 = .ok false :=
  claim_C8_owner_report
    (fun i => if i = "a1" then some { user_id := "u1" } else none)
    c1Store "a1" "u1" 100 { user_id := "u1" } { has_access := false }
    (by decide) rfl (by decide)

/-! ## Rate limiter (`lease_routes.py`, `check_rate_limit`)

`QUICK_ANALYZE_RATE_LIMITS` / `IP_RATE_LIMITS` are dicts from identifier to
timestamp list; a missing key reads as `[]` (`.get(key, [])`), so the two
maps are modelled as total functions into lists. -/

def QUICK_ANALYZE_USER_LIMIT : Nat := 3

def QUICK_ANALYZE_IP_LIMIT : Nat := 20

/-- `QUICK_ANALYZE_WINDOW = timedelta(hours=24)`, in seconds. -/
def QUICK_ANALYZE_WINDOW : Int := 86400

@[ext]
structure RateLimitState where
  user_limits : String → List Int
  ip_limits : String → List Int

/-- The `(allowed, remaining_attempts)` pair `check_rate_limit` returns. -/
structure RateLimitResult where
  allowed : Bool
  remaining : Nat
deriving DecidableEq, Repr

/-- The pruning list comprehension `[ts for ts in L if ts > window_start]`
with `window_start = now - QUICK_ANALYZE_WINDOW`. -/
def pruneWindow (now : Int) (l : List Int) : List Int :=
  l.filter (fun ts => now - QUICK_ANALYZE_WINDOW < ts)

/-- `check_rate_limit(user_id, ip_address)` (lease_routes.py lines 881-927):
prune both counters to the trailing 24-hour window, deny (recording nothing
further) if either cap is reached, otherwise record `now` in both. -/
def check_rate_limit (st : RateLimitState) (user_id ip_address : String)
    (now : Int) : RateLimitResult × RateLimitState :=
  let user_requests := pruneWindow now (st.user_limits user_id)
  let ip_requests := pruneWindow now (st.ip_limits ip_address)
  let pruned : RateLimitState :=
    { user_limits := fun u => if u = user_id then user_requests
        else st.user_limits u
      ip_limits := fun i => if i = ip_address then ip_requests
        else st.ip_limits i }
  if QUICK_ANALYZE_USER_LIMIT ≤ user_requests.length then
    ({ allowed := false, remaining := 0 }, pruned)
  else if QUICK_ANALYZE_IP_LIMIT ≤ ip_requests.length then
    ({ allowed := false
       remaining := QUICK_ANALYZE_USER_LIMIT - user_requests.length }, pruned)
  else
    ({ allowed := true
       remaining := QUICK_ANALYZE_USER_LIMIT - (user_requests.length + 1) },
     { user_limits := fun u => if u = user_id then user_requests ++ [now]
         else st.user_limits u
       ip_limits := fun i => if i = ip_address then ip_requests ++ [now]
         else st.ip_limits i })

/-- The empty rate-limit state: no traffic recorded anywhere. -/
def emptyRateLimits : RateLimitState :=
  { user_limits := fun _ => [], ip_limits := fun _ => [] }

/-- A state whose only traffic is one identifier's and one IP's lists. -/
def singleRateState (lu li : List Int) (u ip : String) : RateLimitState :=
  { user_limits := fun v => if v = u then lu else []
    ip_limits := fun j => if j = ip then li else [] }

lemma pruneWindow_nil (now : Int) : pruneWindow now [] = [] := rfl

lemma pruneWindow_cons (now a : Int) (l : List Int) :
    pruneWindow now (a :: l) =
      if now - 86400 < a then a :: pruneWindow now l else pruneWindow now l := by
  simp only [pruneWindow, QUICK_ANALYZE_WINDOW, List.filter_cons,
    decide_eq_true_eq]

lemma check_rate_limit_single_allow (lu li : List Int) (u ip : String)
    (t : Int) (hu : (pruneWindow t lu).length < QUICK_ANALYZE_USER_LIMIT)
    (hi : (pruneWindow t li).length < QUICK_ANALYZE_IP_LIMIT) :
    check_rate_limit (singleRateState lu li u ip) u ip t =
      ({ allowed := true
         remaining :=
           QUICK_ANALYZE_USER_LIMIT - ((pruneWindow t lu).length + 1) },
       singleRateState (pruneWindow t lu ++ [t]) (pruneWindow t li ++ [t])
         u ip) := by
  have hlu : (singleRateState lu li u ip).user_limits u = lu := by
    simp [singleRateState]
  have hli : (singleRateState lu li u ip).ip_limits ip = li := by
    simp [singleRateState]
  simp only [check_rate_limit, hlu, hli]
  rw [if_neg (by omega), if_neg (by omega)]
  refine congrArg (Prod.mk _) (RateLimitState.ext ?_ ?_)
  · funext v
    simp only [singleRateState]
    split <;> simp [*]
  · funext v
    simp only [singleRateState]
    split <;> simp [*]

lemma check_rate_limit_single_deny (lu li : List Int) (u ip : String)
    (t : Int) (hu : QUICK_ANALYZE_USER_LIMIT ≤ (pruneWindow t lu).length) :
    check_rate_limit (singleRateState lu li u ip) u ip t =
      ({ allowed := false, remaining := 0 },
       singleRateState (pruneWindow t lu) (pruneWindow t li) u ip) := by
  have hlu : (singleRateState lu li u ip).user_limits u = lu := by
    simp [singleRateState]
  have hli : (singleRateState lu li u ip).ip_limits ip = li := by
    simp [singleRateState]
  simp only [check_rate_limit, hlu, hli]
  rw [if_pos hu]
  refine congrArg (Prod.mk _) (RateLimitState.ext ?_ ?_)
  · funext v
    simp only [singleRateState]
    split <;> simp [*]
  · funext v
    simp only [singleRateState]
    split <;> simp [*]

/-- C5: starting from empty counters, three checks for one identifier/IP at
`t1 ≤ t2 ≤ t3` within 24 hours of `t1` are allowed; a fourth at
`t4 < t1 + 24h` is denied and leaves both counters exactly as they were; and
a fifth at any `t5 > t1 + 24h` is allowed again, `t1` having aged out of the
window while the denied attempt was never recorded. -/
theorem claim_C5_rate_limiter (t1 t2 t3 t4 t5 : Int) (u ip : String)
    (h12 : t1 ≤ t2) (h23 : t2 ≤ t3) (h3 : t3 < t1 + 86400)
    (h4 : t4 < t1 + 86400) (h5 : t1 + 86400 < t5) :
    (check_rate_limit emptyRateLimits u ip t1).1.allowed = true ∧
    (check_rate_limit (check_rate_limit emptyRateLimits u ip t1).2
        u ip t2).1.allowed = true ∧
    (check_rate_limit (check_rate_limit
        (check_rate_limit emptyRateLimits u ip t1).2 u ip t2).2
        u ip t3).1.allowed = true ∧
    (check_rate_limit (check_rate_limit (check_rate_limit
        (check_rate_limit emptyRateLimits u ip t1).2 u ip t2).2
        u ip t3).2 u ip t4).1.allowed = false ∧
    (check_rate_limit (check_rate_limit (check_rate_limit
        (check_rate_limit emptyRateLimits u ip t1).2 u ip t2).2
        u ip t3).2 u ip t4).2 =
      (check_rate_limit (check_rate_limit
        (check_rate_limit emptyRateLimits u ip t1).2 u ip t2).2
        u ip t3).2 ∧
    (check_rate_limit (check_rate_limit (check_rate_limit (check_rate_limit
        (check_rate_limit emptyRateLimits u ip t1).2 u ip t2).2
        u ip t3).2 u ip t4).2 u ip t5).1.allowed = true := by
  have hempty : emptyRateLimits = singleRateState [] [] u ip := by
    ext v <;> simp [emptyRateLimits, singleRateState]
  have p1 : pruneWindow t1 ([] : List Int) = [] := rfl
  have s1 : check_rate_limit emptyRateLimits u ip t1 =
      ({ allowed := true, remaining := 2 }, singleRateState [t1] [t1] u ip) := by
    rw [hempty, check_rate_limit_single_allow [] [] u ip t1
      (by simp [p1, QUICK_ANALYZE_USER_LIMIT])
      (by simp [p1, QUICK_ANALYZE_IP_LIMIT])]
    simp [p1, QUICK_ANALYZE_USER_LIMIT]
  have p2 : pruneWindow t2 [t1] = [t1] := by
    rw [pruneWindow_cons, if_pos (by omega), pruneWindow_nil]
  have s2 : check_rate_limit (check_rate_limit emptyRateLimits u ip t1).2
      u ip t2 =
      ({ allowed := true, remaining := 1 },
       singleRateState [t1, t2] [t1, t2] u ip) := by
    rw [s1]
    rw [check_rate_limit_single_allow [t1] [t1] u ip t2
      (by simp [p2, QUICK_ANALYZE_USER_LIMIT])
      (by simp [p2, QUICK_ANALYZE_IP_LIMIT])]
    simp [p2, QUICK_ANALYZE_USER_LIMIT]
  have p3 : pruneWindow t3 [t1, t2] = [t1, t2] := by
    rw [pruneWindow_cons, if_pos (by omega), pruneWindow_cons,
      if_pos (by omega), pruneWindow_nil]
  have s3 : check_rate_limit (check_rate_limit
      (check_rate_limit emptyRateLimits u ip t1).2 u ip t2).2 u ip t3 =
      ({ allowed := true, remaining := 0 },
       singleRateState [t1, t2, t3] [t1, t2, t3] u ip) := by
    rw [s2]
    rw [check_rate_limit_single_allow [t1, t2] [t1, t2] u ip t3
      (by simp [p3, QUICK_ANALYZE_USER_LIMIT])
      (by simp [p3, QUICK_ANALYZE_IP_LIMIT])]
    simp [p3, QUICK_ANALYZE_USER_LIMIT]
  have p4 : pruneWindow t4 [t1, t2, t3] = [t1, t2, t3] := by
    rw [pruneWindow_cons, if_pos (by omega), pruneWindow_cons,
      if_pos (by omega), pruneWindow_cons, if_pos (by omega), pruneWindow_nil]
  have s4 : check_rate_limit (check_rate_limit (check_rate_limit
      (check_rate_limit emptyRateLimits u ip t1).2 u ip t2).2
      u ip t3).2 u ip t4 =
      ({ allowed := false, remaining := 0 },
       singleRateState [t1, t2, t3] [t1, t2, t3] u ip) := by
    rw [s3]
    rw [check_rate_limit_single_deny [t1, t2, t3] [t1, t2, t3] u ip t4
      (by simp [p4, QUICK_ANALYZE_USER_LIMIT])]
    rw [p4]
  have p5 : pruneWindow t5 [t1, t2, t3] = pruneWindow t5 [t2, t3] := by
    rw [pruneWindow_cons, if_neg (by omega)]
  have hlen5 : (pruneWindow t5 [t1, t2, t3]).length < 3 := by
    rw [p5]
    have := List.length_filter_le
      (fun ts => decide (t5 - QUICK_ANALYZE_WINDOW < ts)) [t2, t3]
    simp only [pruneWindow]
    simp only [List.length_cons, List.length_nil] at this
    omega
  have hlen5' : (pruneWindow t5 [t1, t2, t3]).length < 20 := by omega
  have s5 : (check_rate_limit (singleRateState [t1, t2, t3] [t1, t2, t3] u ip)
      u ip t5).1.allowed = true := by
    rw [check_rate_limit_single_allow [t1, t2, t3] [t1, t2, t3] u ip t5
      (by simpa [QUICK_ANALYZE_USER_LIMIT] using hlen5)
      (by simpa [QUICK_ANALYZE_IP_LIMIT] using hlen5')]
  refine ⟨by rw [s1], by rw [s2], by rw [s3], by rw [s4], ?_, ?_⟩
  · rw [s4, s3]
  · rw [s4]
    exact s5

/-- Concrete instance of C5 at `t1..t3 = 0,1,2`, `t4 = 3`,
`t5 = 86401 = t1 + 24h + 1s`. -/
theorem claim_C5_rate_limiter_witness :
    (check_rate_limit emptyRateLimits "u" "ip" 0).1.allowed = true ∧
    (check_rate_limit (check_rate_limit emptyRateLimits "u" "ip" 0).2
        "u" "ip" 1).1.allowed = true ∧
    (check_rate_limit (check_rate_limit
        (check_rate_limit emptyRateLimits "u" "ip" 0).2 "u" "ip" 1).2
        "u" "ip" 2).1.allowed = true ∧
    (check_rate_limit (check_rate_limit (check_rate_limit
        (check_rate_limit emptyRateLimits "u" "ip" 0).2 "u" "ip" 1).2
        "u" "ip" 2).2 "u" "ip" 3).1.allowed = false ∧
    (check_rate_limit (check_rate_limit (check_rate_limit
        (check_rate_limit emptyRateLimits "u" "ip" 0).2 "u" "ip" 1).2
        "u" "ip" 2).2 "u" "ip" 3).2 =
      (check_rate_limit (check_rate_limit
        (check_rate_limit emptyRateLimits "u" "ip" 0).2 "u" "ip" 1).2
        "u" "ip" 2).2 ∧
    (check_rate_limit (check_rate_limit (check_rate_limit (check_rate_limit
        (check_rate_limit emptyRateLimits "u" "ip" 0).2 "u" "ip" 1).2
        "u" "ip" 2).2 "u" "ip" 3).2 "u" "ip" 86401).1.allowed = true :=
  claim_C5_rate_limiter 0 1 2 3 86401 "u" "ip" (by decide) (by decide)
    (by decide) (by decide) (by decide)

/-! ## Noise filter & high-risk extraction
(`utils/text_parser.py`, `filter_and_extract_high_risk_clauses`)

The function reads only `clause_text` and `risk_level` from each clause dict
and passes the dicts through unchanged, so a clause is modelled by those two
fields. -/

structure Clause where
  clause_text : String
  risk_level : String
deriving DecidableEq, Repr

/-- Python substring test `pat in s` over the characters. -/
def containsSub (s pat : List Char) : Bool :=
  pat.isPrefixOf s ||
    match s with
    | [] => false
    | _ :: rest => containsSub rest pat

/-- `money_termination_keywords` (text_parser.py lines 257-278). -/
def money_termination_keywords : List String :=
  ["rent", "fee", "deposit", "termination", "terminate", "penalty", "charge",
   "payment", "late", "evict", "break", "cancel",
   "租金", "费用", "押金", "终止", "违约", "罚款", "滞纳金", "解约"]

/-- Consume exactly `n` decimal digits. -/
def chompDigits : Nat → List Char → Option (List Char)
  | 0, cs => some cs
  | _ + 1, [] => none
  | n + 1, c :: cs => if c.isDigit then chompDigits n cs else none

/-- Consume one slash-or-dash separator. -/
def chompSep : List Char → Option (List Char)
  | [] => none
  | c :: cs => if c = '/' || c = '-' then some cs else none

/-- A match of the date regex — one or two digits, a slash-or-dash
separator, one or two digits, another separator, two to four digits —
anchored at the head: some choice of repetition counts fits. -/
def datePatternAt (cs : List Char) : Bool :=
  [1, 2].any fun a => [1, 2].any fun b => [2, 3, 4].any fun c =>
    match chompDigits a cs with
    | none => false
    | some r1 =>
      match chompSep r1 with
      | none => false
      | some r2 =>
        match chompDigits b r2 with
        | none => false
        | some r3 =>
          match chompSep r3 with
          | none => false
          | some r4 => (chompDigits c r4).isSome

/-- `re.search` of the date pattern: a match starts at some suffix. -/
def hasDatePattern : List Char → Bool
  | [] => datePatternAt []
  | c :: cs => datePatternAt (c :: cs) || hasDatePattern cs

/-- The keep condition of the noise filter (text_parser.py lines 288-294):
clauses shorter than 15 characters survive only with a digit, a currency
symbol, or a date-like pattern. -/
def keepClause (c : Clause) : Bool :=
  if c.clause_text.length < 15 then
    c.clause_text.toList.any Char.isDigit ||
    (c.clause_text.toList.contains '$' || c.clause_text.toList.contains '€' ||
     c.clause_text.toList.contains '£' || c.clause_text.toList.contains '¥') ||
    hasDatePattern c.clause_text.toList
  else true

/-- The high-risk condition (text_parser.py lines 298-302): `danger`, or
`caution` with a money/termination keyword in the lowercased or the original
text. -/
def highRiskCond (c : Clause) : Bool :=
  c.risk_level == "danger" ||
    (c.risk_level == "caution" &&
      money_termination_keywords.any fun kw =>
        containsSub c.clause_text.toLower.toList kw.toList ||
        containsSub c.clause_text.toList kw.toList)

/-- `filter_and_extract_high_risk_clauses` (text_parser.py lines 251-304):
one pass appending each kept clause to `filtered` and, when high-risk, also
to `high_risk`. -/
def filter_and_extract_high_risk_clauses :
    List Clause → List Clause × List Clause
  | [] => ([], [])
  | c :: rest =>
    let p := filter_and_extract_high_risk_clauses rest
    if keepClause c then
      (c :: p.1, if highRiskCond c then c :: p.2 else p.2)
    else p

/-- C6: `high_risk` is exactly the in-order subsequence of the kept
(noise-filtered) clauses that are `danger`, or `caution` with a bilingual
money/termination keyword; it is a sublist of the kept list (relative order
preserved), and no `safe` clause ever appears in it. -/
theorem claim_C6_high_risk_extraction (clauses : List Clause) :
    (filter_and_extract_high_risk_clauses clauses).1 =
      clauses.filter keepClause ∧
    (filter_and_extract_high_risk_clauses clauses).2 =
      (clauses.filter keepClause).filter highRiskCond ∧
    List.Sublist (filter_and_extract_high_risk_clauses clauses).2
      (filter_and_extract_high_risk_clauses clauses).1 ∧
    ∀ c ∈ (filter_and_extract_high_risk_clauses clauses).2,
      c.risk_level ≠ "safe" := by
  have hmain : (filter_and_extract_high_risk_clauses clauses).1 =
      clauses.filter keepClause ∧
      (filter_and_extract_high_risk_clauses clauses).2 =
        (clauses.filter keepClause).filter highRiskCond := by
    induction clauses with
    | nil => exact ⟨rfl, rfl⟩
    | cons c rest ih =>
      simp only [filter_and_extract_high_risk_clauses, List.filter_cons]
      by_cases hk : keepClause c
      · simp only [hk, if_true, List.filter_cons]
        by_cases hh : highRiskCond c
        · simp only [hh, if_true]
          exact ⟨by rw [ih.1], by rw [ih.2]⟩
        · simp only [hh, if_false, Bool.false_eq_true]
          exact ⟨by rw [ih.1], by rw [ih.2]⟩
      · simp only [hk, if_false, Bool.false_eq_true]
        exact ih
  refine ⟨hmain.1, hmain.2, ?_, ?_⟩
  · rw [hmain.1, hmain.2]
    exact List.filter_sublist _
  · intro c hc
    rw [hmain.2] at hc
    have hcond : highRiskCond c = true := List.of_mem_filter hc
    simp only [highRiskCond, Bool.or_eq_true, Bool.and_eq_true,
      beq_iff_eq] at hcond
    rcases hcond with h | ⟨h, _⟩ <;> rw [h] <;> decide

/-- The kept `danger` clause used in the C6 witness. -/
def c6DangerClause : Clause :=
  { clause_text := "Tenant pays a late fee of 5 percent"
    risk_level := "danger" }

/-- The C6 witness input: a kept `danger` clause, a noise clause, a `safe`
clause. -/
def c6Clauses : List Clause :=
  [c6DangerClause,
   { clause_text := "Section Five", risk_level := "danger" },
   { clause_text := "Quiet enjoyment of the premises is ensured"
     risk_level := "safe" }]

/-- Concrete instance of C6: on `c6Clauses` the extracted high-risk list is
the singleton `danger` clause, and a member of the high-risk list is not
`safe`. -/
theorem claim_C6_high_risk_extraction_witness :
    (filter_and_extract_high_risk_clauses c6Clauses).2 = [c6DangerClause] ∧
    c6DangerClause.risk_level ≠ "safe" := by
  constructor
  · rw [(claim_C6_high_risk_extraction c6Clauses).2.1]
    decide
  · exact (claim_C6_high_risk_extraction c6Clauses).2.2.2 c6DangerClause
      (by decide)

/-! ## Summary validation (`utils/text_parser.py`,
`validate_summary_response` and its helpers)

The raw LLM output is a JSON mapping; its values are modelled by `PyVal`
(absent key and JSON `null` both map to `vNone` — `dict.get` hands both to
the same code paths here).  Python floats are carried as exact rationals:
every literal this code compares against is exactly representable, and the
one computed quotient (days / 30.44) is nowhere near a rounding boundary. -/

inductive PyVal where
  | vNone : PyVal
  | vStr (s : String) : PyVal
  | vInt (n : Int) : PyVal
  | vNum (q : ℚ) : PyVal
deriving DecidableEq, Repr

/-- Python truthiness for the values above (a normalized rational is zero
iff its numerator is). -/
def truthyPy : PyVal → Bool
  | .vNone => false
  | .vStr s => s ≠ ""
  | .vInt n => n ≠ 0
  | .vNum q => q.num ≠ 0

/-- Whitespace characters of the regex class `\s` / `str.strip`. -/
def isPySpace (c : Char) : Bool :=
  c == ' ' || c == '\t' || c == '\n' || c == '\r' || c == '\x0b' || c == '\x0c'

/-- Python `str.strip()` over the characters. -/
def pyStrip (cs : List Char) : List Char :=
  ((cs.dropWhile isPySpace).reverse.dropWhile isPySpace).reverse

def allDigits (cs : List Char) : Bool :=
  !cs.isEmpty && cs.all Char.isDigit

def digitsToNat (cs : List Char) : Nat :=
  cs.foldl (fun a c => a * 10 + (c.toNat - 48)) 0

/-- Split a character list on a single separator character (the separators
used here — space, slash, dash — are all single characters). -/
def splitOnChar (sep : Char) : List Char → List (List Char)
  | [] => [[]]
  | c :: cs =>
    let r := splitOnChar sep cs
    if c = sep then [] :: r
    else
      match r with
      | [] => [[c]]
      | h :: t => (c :: h) :: t

/-- The character filter of `re.sub(r"[,$\s]", "", value)`. -/
def stripNumericChars (cs : List Char) : List Char :=
  cs.filter (fun c => !(c == ',' || c == '$' || isPySpace c))

/-- Python `float(str)` on the decimal forms this pipeline feeds it: optional
sign, digits with at most one point, at least one digit.  (The exotic float
literals — exponents, `inf`, `nan` — never survive `stripNumericChars`
applied to money strings and are out of scope.) -/
def parseFloatQ (cs : List Char) : Option ℚ :=
  let (sgn, rest) : Int × List Char :=
    match cs with
    | '-' :: t => (-1, t)
    | '+' :: t => (1, t)
    | _ => (1, cs)
  let intPart := rest.takeWhile Char.isDigit
  let rest2 := rest.dropWhile Char.isDigit
  match rest2 with
  | [] =>
    if intPart.isEmpty then none
    else some (mkRat (sgn * (digitsToNat intPart : Int)) 1)
  | '.' :: frac =>
    if frac.all Char.isDigit && !(intPart.isEmpty && frac.isEmpty) then
      some (mkRat
        (sgn * ((digitsToNat intPart * 10 ^ frac.length + digitsToNat frac :
          Nat) : Int))
        (10 ^ frac.length))
    else none
  | _ => none

/-- `parse_numeric` (text_parser.py lines 132-143): numbers pass through as
floats, strings are cleaned of `, $ \s` and float-parsed, anything else is
`None`. -/
def parse_numeric : PyVal → Option ℚ
  | .vNone => none
  | .vInt n => some (mkRat n 1)
  | .vNum q => some q
  | .vStr s => parseFloatQ (stripNumericChars s.toList)

/-- Gregorian leap year (`datetime`'s proleptic calendar). -/
def isLeapYear (y : Nat) : Bool :=
  y % 4 = 0 && (y % 100 ≠ 0 || y % 400 = 0)

def daysInMonth (y m : Nat) : Nat :=
  if m = 2 then (if isLeapYear y then 29 else 28)
  else if m = 4 ∨ m = 6 ∨ m = 9 ∨ m = 11 then 30
  else 31

/-- The validity check `datetime(year, month, day)` performs; `none` models
the `ValueError` strptime raises on an impossible date. -/
def mkDate (y m d : Nat) : Option (Nat × Nat × Nat) :=
  if 1 ≤ y ∧ 1 ≤ m ∧ m ≤ 12 ∧ 1 ≤ d ∧ d ≤ daysInMonth y m then some (y, m, d)
  else none

/-- Lowercased full month names, as matched case-insensitively by `%B`. -/
def monthNamesFull : List (String × Nat) :=
  [("january", 1), ("february", 2), ("march", 3), ("april", 4), ("may", 5),
   ("june", 6), ("july", 7), ("august", 8), ("september", 9), ("october", 10),
   ("november", 11), ("december", 12)]

/-- Lowercased month abbreviations, as matched case-insensitively by `%b`. -/
def monthAbbrevs : List (String × Nat) :=
  [("jan", 1), ("feb", 2), ("mar", 3), ("apr", 4), ("may", 5), ("jun", 6),
   ("jul", 7), ("aug", 8), ("sep", 9), ("oct", 10), ("nov", 11), ("dec", 12)]

/-- `strptime` with format `"%B %d, %Y"` / `"%b %d, %Y"` (month-name table
as parameter), in the single-space-separated form the pipeline receives:
month name, day (1-2 digits), comma, year (4 digits), then calendar
validity. -/
def parseMonthDayCommaYear (tbl : List (String × Nat)) (cs : List Char) :
    Option (Nat × Nat × Nat) :=
  match splitOnChar ' ' cs with
  | [mo, dayComma, yr] =>
    match tbl.find? (fun p => p.1.toList = mo.map Char.toLower) with
    | none => none
    | some (_, m) =>
      match dayComma.getLast? with
      | some ',' =>
        let dcs := dayComma.dropLast
        if allDigits dcs ∧ dcs.length ≤ 2 ∧ allDigits yr ∧ yr.length = 4 then
          mkDate (digitsToNat yr) m (digitsToNat dcs)
        else none
      | _ => none
  | _ => none

/-- `strptime` with format `"%m/%d/%Y"` (`monthFirst`) or `"%d/%m/%Y"`:
two 1-2 digit fields, a 4-digit year, then calendar validity. -/
def parseSlashDate (monthFirst : Bool) (cs : List Char) :
    Option (Nat × Nat × Nat) :=
  match splitOnChar '/' cs with
  | [a, b, yr] =>
    if allDigits a ∧ a.length ≤ 2 ∧ allDigits b ∧ b.length ≤ 2 ∧
        allDigits yr ∧ yr.length = 4 then
      if monthFirst then mkDate (digitsToNat yr) (digitsToNat a) (digitsToNat b)
      else mkDate (digitsToNat yr) (digitsToNat b) (digitsToNat a)
    else none
  | _ => none

/-- The anchored regex `\d4-\d2-\d2` (four digits, dash, two, dash, two)
that short-circuits `parse_iso_date`. -/
def isoShapeB (cs : List Char) : Bool :=
  match cs with
  | [a, b, c, d, '-', e, f, '-', g, h] =>
    [a, b, c, d, e, f, g, h].all Char.isDigit
  | _ => false

def digitChar (n : Nat) : Char := Char.ofNat (48 + n)

def pad2str (n : Nat) : List Char := [digitChar (n / 10 % 10), digitChar (n % 10)]

def pad4str (n : Nat) : List Char :=
  [digitChar (n / 1000 % 10), digitChar (n / 100 % 10), digitChar (n / 10 % 10),
   digitChar (n % 10)]

/-- `dt.strftime("%Y-%m-%d")`, zero-padded. -/
def formatYMD (y m d : Nat) : String :=
  String.mk (pad4str y ++ '-' :: pad2str m ++ '-' :: pad2str d)

/-- `parse_iso_date` (text_parser.py lines 146-159): falsy and non-string
values give `None`; a stripped string already shaped `YYYY-MM-DD` is
returned as-is (no calendar validation!); otherwise the four strptime
formats are tried in order and the first success is reformatted. -/
def parse_iso_date (v : PyVal) : Option String :=
  if !truthyPy v then none
  else
    match v with
    | .vStr s =>
      let t := pyStrip s.toList
      if isoShapeB t then some (String.mk t)
      else
        match parseMonthDayCommaYear monthNamesFull t with
        | some (y, m, d) => some (formatYMD y m d)
        | none =>
          match parseMonthDayCommaYear monthAbbrevs t with
          | some (y, m, d) => some (formatYMD y m d)
          | none =>
            match parseSlashDate true t with
            | some (y, m, d) => some (formatYMD y m d)
            | none =>
              match parseSlashDate false t with
              | some (y, m, d) => some (formatYMD y m d)
              | none => none
    | _ => none

/-- Days from 1970-01-01 to the given civil date (standard days-from-civil
computation; `datetime` subtraction is exactly the difference of these). -/
def daysFromCivil (y m d : Nat) : Int :=
  let y2 := if m ≤ 2 then y - 1 else y
  let era := y2 / 400
  let yoe := y2 % 400
  let mp := (m + 9) % 12
  let doy := (153 * mp + 2) / 5 + (d - 1)
  let doe := yoe * 365 + yoe / 4 - yoe / 100 + doy
  ((era * 146097 + doe : Nat) : Int) - 719468

/-- `strptime` with format `"%Y-%m-%d"` as used by
`calculate_duration_months`: 4-digit year, 1-2 digit month and day, calendar
validity. -/
def parseYMDStrict (s : String) : Option (Nat × Nat × Nat) :=
  match splitOnChar '-' s.toList with
  | [ys, ms, ds] =>
    if allDigits ys ∧ ys.length = 4 ∧ allDigits ms ∧ ms.length ≤ 2 ∧
        allDigits ds ∧ ds.length ≤ 2 then
      mkDate (digitsToNat ys) (digitsToNat ms) (digitsToNat ds)
    else none
  | _ => none

/-- Rational floor, `q.num` floor-divided by `q.den`. -/
def ratFloor (q : ℚ) : Int := Int.fdiv q.num q.den

/-- Python `round()` on the exact value: round half to even.  With
`f = ⌊q⌋` and `rem = q.num - f * q.den`, the fractional part `rem / q.den`
is compared against one half by cross-multiplying. -/
def pyRound (q : ℚ) : Int :=
  let f := ratFloor q
  let rem := q.num - f * q.den
  if 2 * rem < (q.den : Int) then f
  else if (q.den : Int) < 2 * rem then f + 1
  else if f % 2 = 0 then f else f + 1

/-- `calculate_duration_months` (text_parser.py lines 162-173):
`round((end - start).days / 30.44)`, kept only when positive; a strptime
failure (`ValueError`) yields `None`. -/
def calculate_duration_months (start_date end_date : Option String) :
    Option Int :=
  match start_date, end_date with
  | some s, some e =>
    match parseYMDStrict s, parseYMDStrict e with
    | some (y1, m1, d1), some (y2, m2, d2) =>
      let days : Int := daysFromCivil y2 m2 d2 - daysFromCivil y1 m1 d1
      let months := pyRound (mkRat (days * 100) 3044)
      if 0 < months then some months else none
    | _, _ => none
  | _, _ => none

/-- Python `int(value)` on the values the duration field can hold: ints pass
through, floats truncate toward zero, integer-literal strings parse.  (A
non-numeric string raises `ValueError` in Python; that path is conflated
with `None` here and is unexercised by the claims.) -/
def pyToInt : PyVal → Option Int
  | .vNone => none
  | .vInt n => some n
  | .vNum q => some (if q.num < 0 then -(ratFloor (-q)) else ratFloor q)
  | .vStr s =>
    match pyStrip s.toList with
    | '-' :: cs => if allDigits cs then some (-(digitsToNat cs : Int)) else none
    | '+' :: cs => if allDigits cs then some ((digitsToNat cs : Int)) else none
    | cs => if allDigits cs then some ((digitsToNat cs : Int)) else none

/-- The raw mapping fed to `validate_summary_response`; absent keys are
`vNone`. -/
structure RawSummary where
  monthly_rent_amount : PyVal := .vNone
  currency : PyVal := .vNone
  lease_start_date : PyVal := .vNone
  lease_end_date : PyVal := .vNone
  lease_duration_months : PyVal := .vNone
  security_deposit_amount : PyVal := .vNone
  landlord_name : PyVal := .vNone
  tenant_name : PyVal := .vNone
  late_fee_summary_zh : PyVal := .vNone
  early_termination_risk_zh : PyVal := .vNone
  overall_risk : PyVal := .vNone
deriving DecidableEq, Repr

/-- The validated summary record. `landlord_name` / `tenant_name` and the
two Chinese sentences pass through unvalidated, so they stay `PyVal`. -/
structure Summary where
  overall_risk : String
  monthly_rent_amount : Option ℚ
  currency : String
  lease_start_date : Option String
  lease_end_date : Option String
  lease_duration_months : Option Int
  security_deposit_amount : Option ℚ
  landlord_name : PyVal
  tenant_name : PyVal
  late_fee_summary_zh : PyVal
  early_termination_risk_zh : PyVal
deriving DecidableEq, Repr

/-- `validate_summary_response` (text_parser.py lines 176-214). -/
def validate_summary_response (raw : RawSummary) : Summary :=
  let currency :=
    match (if truthyPy raw.currency then raw.currency else .vStr "USD") with
    | .vStr s => String.mk (s.toList.map Char.toUpper)
    | _ => "USD"
  let monthly_rent := parse_numeric raw.monthly_rent_amount
  let start_date := parse_iso_date raw.lease_start_date
  let end_date := parse_iso_date raw.lease_end_date
  let duration : Option Int :=
    if start_date.isSome ∧ end_date.isSome ∧
        !truthyPy raw.lease_duration_months then
      calculate_duration_months start_date end_date
    else
      pyToInt raw.lease_duration_months
  let overall_risk :=
    match (if raw.overall_risk = .vNone then .vStr "medium"
           else raw.overall_risk) with
    | .vStr s => if s = "low" ∨ s = "medium" ∨ s = "high" then s else "medium"
    | _ => "medium"
  { overall_risk := overall_risk
    monthly_rent_amount := monthly_rent
    currency := currency
    lease_start_date := start_date
    lease_end_date := end_date
    lease_duration_months := duration
    security_deposit_amount := parse_numeric raw.security_deposit_amount
    landlord_name := raw.landlord_name
    tenant_name := raw.tenant_name
    late_fee_summary_zh :=
      if truthyPy raw.late_fee_summary_zh then raw.late_fee_summary_zh
      else .vStr "未明确写明滞纳金条款"
    early_termination_risk_zh :=
      if truthyPy raw.early_termination_risk_zh then
        raw.early_termination_risk_zh
      else .vStr "未明确写明提前解约条款" }

/-- C7: validating the mapping with rent `"1,200.50"`, start
`"July 1, 2012"`, end `"2013-06-30"` yields rent `1200.50`, start
`"2012-07-01"`, end `"2013-06-30"`, and duration `12` months (the 364-day
span divided by 30.44, rounded to nearest). -/
theorem claim_C7_summary_validation :
    (validate_summary_response
        { monthly_rent_amount := .vStr "1,200.50"
          lease_start_date := .vStr "July 1, 2012"
          lease_end_date := .vStr "2013-06-30" }).monthly_rent_amount =
      some (mkRat 2401 2) ∧
    (validate_summary_response
        { monthly_rent_amount := .vStr "1,200.50"
          lease_start_date := .vStr "July 1, 2012"
          lease_end_date := .vStr "2013-06-30" }).lease_start_date =
      some "2012-07-01" ∧
    (validate_summary_response
        { monthly_rent_amount := .vStr "1,200.50"
          lease_start_date := .vStr "July 1, 2012"
          lease_end_date := .vStr "2013-06-30" }).lease_end_date =
      some "2013-06-30" ∧
    (validate_summary_response
        { monthly_rent_amount := .vStr "1,200.50"
          lease_start_date := .vStr "July 1, 2012"
          lease_end_date := .vStr "2013-06-30" }).lease_duration_months =
      some 12 := by
  decide

/-! ## Webhook signature verification (`services/paddle.py`,
`verify_webhook_signature`)

`hmac.new(config.api_key.encode(), payload, hashlib.sha256).hexdigest()`
compared (constant-time, but extensionally string equality) against the
header signature.  SHA-256 (FIPS 180-4) and HMAC (RFC 2104) are embedded
over byte lists — `List Nat` with entries below 256 — with 32-bit words as
`Nat` reduced `% 2 ^ 32`.  The implementation matches the standard test
vectors (empty string, `"abc"`, RFC 4231 cases). -/

def add32 (a b : Nat) : Nat := (a + b) % 4294967296

def xor32 (a b : Nat) : Nat := Nat.xor a b

def and32 (a b : Nat) : Nat := Nat.land a b

def not32 (a : Nat) : Nat := Nat.xor a 4294967295

/-- Rotate a 32-bit word right by `n`: the low `n` bits wrap to the top. -/
def rotr32 (n w : Nat) : Nat := (w % 2 ^ n) * 2 ^ (32 - n) + w / 2 ^ n

def shr32 (n w : Nat) : Nat := w / 2 ^ n

def smallSigma0 (w : Nat) : Nat :=
  xor32 (xor32 (rotr32 7 w) (rotr32 18 w)) (shr32 3 w)

def smallSigma1 (w : Nat) : Nat :=
  xor32 (xor32 (rotr32 17 w) (rotr32 19 w)) (shr32 10 w)

def bigSigma0 (w : Nat) : Nat :=
  xor32 (xor32 (rotr32 2 w) (rotr32 13 w)) (rotr32 22 w)

def bigSigma1 (w : Nat) : Nat :=
  xor32 (xor32 (rotr32 6 w) (rotr32 11 w)) (rotr32 25 w)

def chF (x y z : Nat) : Nat := xor32 (and32 x y) (and32 (not32 x) z)

def majF (x y z : Nat) : Nat :=
  xor32 (xor32 (and32 x y) (and32 x z)) (and32 y z)

/-- The 64 SHA-256 round constants. -/
def sha256K : List Nat :=
  [1116352408, 1899447441, 3049323471, 3921009573, 961987163, 1508970993,
    2453635748, 2870763221, 3624381080, 310598401, 607225278, 1426881987,
    1925078388, 2162078206, 2614888103, 3248222580, 3835390401, 4022224774,
    264347078, 604807628, 770255983, 1249150122, 1555081692, 1996064986,
    2554220882, 2821834349, 2952996808, 3210313671, 3336571891, 3584528711,
    113926993, 338241895, 666307205, 773529912, 1294757372, 1396182291,
    1695183700, 1986661051, 2177026350, 2456956037, 2730485921, 2820302411,
    3259730800, 3345764771, 3516065817, 3600352804, 4094571909, 275423344,
    430227734, 506948616, 659060556, 883997877, 958139571, 1322822218,
    1537002063, 1747873779, 1955562222, 2024104815, 2227730452, 2361852424,
    2428436474, 2756734187, 3204031479, 3329325298]

/-- The eight 32-bit working registers. -/
structure ShaRegs where
  ra : Nat
  rb : Nat
  rc : Nat
  rd : Nat
  re : Nat
  rf : Nat
  rg : Nat
  rh : Nat
deriving DecidableEq, Repr

/-- The SHA-256 initial hash value. -/
def shaInit : ShaRegs :=
  { ra := 1779033703, rb := 3144134277, rc := 1013904242, rd := 2773480762
    re := 1359893119, rf := 2600822924, rg := 528734635, rh := 1541459225 }

/-- One big-endian 32-bit word from four bytes. -/
def word4 (b0 b1 b2 b3 : Nat) : Nat := ((b0 * 256 + b1) * 256 + b2) * 256 + b3

def toWords : List Nat → List Nat
  | b0 :: b1 :: b2 :: b3 :: rest => word4 b0 b1 b2 b3 :: toWords rest
  | _ => []

/-- The next message-schedule word from the current schedule tail. -/
def scheduleNext (ws : List Nat) : Nat :=
  let n := ws.length
  add32 (add32 (smallSigma1 (ws.getD (n - 2) 0)) (ws.getD (n - 7) 0))
    (add32 (smallSigma0 (ws.getD (n - 15) 0)) (ws.getD (n - 16) 0))

def extendSchedule : Nat → List Nat → List Nat
  | 0, ws => ws
  | n + 1, ws => extendSchedule n (ws ++ [scheduleNext ws])

/-- One compression round. -/
def roundStep (st : ShaRegs) (kw : Nat × Nat) : ShaRegs :=
  let t1 := add32 st.rh (add32 (bigSigma1 st.re)
    (add32 (chF st.re st.rf st.rg) (add32 kw.1 kw.2)))
  let t2 := add32 (bigSigma0 st.ra) (majF st.ra st.rb st.rc)
  { ra := add32 t1 t2, rb := st.ra, rc := st.rb, rd := st.rc
    re := add32 st.rd t1, rf := st.re, rg := st.rf, rh := st.rg }

/-- Compress one 64-byte block into the chaining state. -/
def compressBlock (hs : ShaRegs) (block : List Nat) : ShaRegs :=
  let w := extendSchedule 48 (toWords block)
  let r := (sha256K.zip w).foldl roundStep hs
  { ra := add32 hs.ra r.ra, rb := add32 hs.rb r.rb, rc := add32 hs.rc r.rc
    rd := add32 hs.rd r.rd, re := add32 hs.re r.re, rf := add32 hs.rf r.rf
    rg := add32 hs.rg r.rg, rh := add32 hs.rh r.rh }

def processBlocks : Nat → ShaRegs → List Nat → ShaRegs
  | 0, hs, _ => hs
  | n + 1, hs, l => processBlocks n (compressBlock hs (l.take 64)) (l.drop 64)

/-- The 8-byte big-endian bit-length trailer. -/
def lenBytes8 (n : Nat) : List Nat :=
  [n / 2 ^ 56 % 256, n / 2 ^ 48 % 256, n / 2 ^ 40 % 256, n / 2 ^ 32 % 256,
   n / 2 ^ 24 % 256, n / 2 ^ 16 % 256, n / 2 ^ 8 % 256, n % 256]

/-- Append `0x80`, zero padding to 56 mod 64, and the bit length. -/
def sha256pad (msg : List Nat) : List Nat :=
  msg ++ 0x80 :: List.replicate ((64 - (msg.length + 9) % 64) % 64) 0 ++
    lenBytes8 (msg.length * 8)

/-- The 32 digest bytes, four big-endian bytes per register. -/
def regsToBytes (r : ShaRegs) : List Nat :=
  [r.ra / 2 ^ 24 % 256, r.ra / 2 ^ 16 % 256, r.ra / 2 ^ 8 % 256, r.ra % 256,
   r.rb / 2 ^ 24 % 256, r.rb / 2 ^ 16 % 256, r.rb / 2 ^ 8 % 256, r.rb % 256,
   r.rc / 2 ^ 24 % 256, r.rc / 2 ^ 16 % 256, r.rc / 2 ^ 8 % 256, r.rc % 256,
   r.rd / 2 ^ 24 % 256, r.rd / 2 ^ 16 % 256, r.rd / 2 ^ 8 % 256, r.rd % 256,
   r.re / 2 ^ 24 % 256, r.re / 2 ^ 16 % 256, r.re / 2 ^ 8 % 256, r.re % 256,
   r.rf / 2 ^ 24 % 256, r.rf / 2 ^ 16 % 256, r.rf / 2 ^ 8 % 256, r.rf % 256,
   r.rg / 2 ^ 24 % 256, r.rg / 2 ^ 16 % 256, r.rg / 2 ^ 8 % 256, r.rg % 256,
   r.rh / 2 ^ 24 % 256, r.rh / 2 ^ 16 % 256, r.rh / 2 ^ 8 % 256, r.rh % 256]

/-- `hashlib.sha256(msg).digest()`. -/
def sha256Bytes (msg : List Nat) : List Nat :=
  let p := sha256pad msg
  regsToBytes (processBlocks (p.length / 64) shaInit p)

/-- RFC 2104 key preparation: hash an over-long key, zero-pad to the 64-byte
block size. -/
def hmacBlockKey (key : List Nat) : List Nat :=
  let k0 := if 64 < key.length then sha256Bytes key else key
  k0 ++ List.replicate (64 - k0.length) 0

/-- `hmac.new(key, msg, hashlib.sha256).digest()`:
`H((K xor opad) ++ H((K xor ipad) ++ msg))`. -/
def hmacSha256 (key msg : List Nat) : List Nat :=
  let k := hmacBlockKey key
  sha256Bytes ((k.map (fun b => Nat.xor b 0x5c)) ++
    sha256Bytes ((k.map (fun b => Nat.xor b 0x36)) ++ msg))

/-- Lowercase hex digit. -/
def hexDigitChar (n : Nat) : Char :=
  if n < 10 then Char.ofNat (48 + n) else Char.ofNat (87 + n)

/-- `.hexdigest()`: two lowercase hex characters per byte. -/
def bytesToHex (l : List Nat) : String :=
  String.mk (l.foldr
    (fun b acc => hexDigitChar (b / 16) :: hexDigitChar (b % 16) :: acc) [])

/-- `hmac.new(key, msg, hashlib.sha256).hexdigest()`. -/
def hmacSha256Hex (key msg : List Nat) : String :=
  bytesToHex (hmacSha256 key msg)

/-- `verify_webhook_signature` (services/paddle.py lines 106-127): with no
API key configured it fails open (`true`); otherwise the hex HMAC of the raw
payload is compared with the supplied signature
(`hmac.compare_digest` — constant-time, extensionally string equality). -/
def verify_webhook_signature (api_key : Option (List Nat))
    (payload : List Nat) (signature : String) : Bool :=
  match api_key with
  | none => true
  | some key => hmacSha256Hex key payload == signature

lemma regsToBytes_length (r : ShaRegs) : (regsToBytes r).length = 32 := rfl

lemma regsToBytes_lt (r : ShaRegs) : ∀ x ∈ regsToBytes r, x < 256 := by
  intro x hx
  simp only [regsToBytes, List.mem_cons, List.not_mem_nil, or_false] at hx
  rcases hx with rfl | rfl | rfl | rfl | rfl | rfl | rfl | rfl | rfl | rfl |
    rfl | rfl | rfl | rfl | rfl | rfl | rfl | rfl | rfl | rfl | rfl | rfl |
    rfl | rfl | rfl | rfl | rfl | rfl | rfl | rfl | rfl | rfl <;>
    exact Nat.mod_lt _ (by norm_num)

lemma sha256Bytes_length (msg : List Nat) : (sha256Bytes msg).length = 32 :=
  regsToBytes_length _

lemma sha256Bytes_lt (msg : List Nat) : ∀ x ∈ sha256Bytes msg, x < 256 :=
  regsToBytes_lt _

lemma hmacSha256_length (key msg : List Nat) :
    (hmacSha256 key msg).length = 32 := sha256Bytes_length _

lemma hmacSha256_lt (key msg : List Nat) :
    ∀ x ∈ hmacSha256 key msg, x < 256 := sha256Bytes_lt _

/-- Value of a little-endian base-256 digit list. -/
def beval : List Nat → Nat
  | [] => 0
  | b :: t => b + 256 * beval t

lemma beval_lt : ∀ l : List Nat, (∀ x ∈ l, x < 256) →
    beval l < 256 ^ l.length := by
  intro l
  induction l with
  | nil => intro _; simp [beval]
  | cons b t ih =>
    intro h
    have hb : b < 256 := h b (by simp)
    have ht : beval t < 256 ^ t.length := ih (fun x hx => h x (by simp [hx]))
    simp only [beval, List.length_cons, pow_succ]
    omega

lemma beval_inj : ∀ l1 l2 : List Nat, l1.length = l2.length →
    (∀ x ∈ l1, x < 256) → (∀ x ∈ l2, x < 256) → beval l1 = beval l2 →
    l1 = l2 := by
  intro l1
  induction l1 with
  | nil =>
    intro l2 hlen _ _ _
    cases l2 with
    | nil => rfl
    | cons b s => simp at hlen
  | cons a t ih =>
    intro l2 hlen h1 h2 heq
    cases l2 with
    | nil => simp at hlen
    | cons b s =>
      have ha : a < 256 := h1 a (by simp)
      have hb : b < 256 := h2 b (by simp)
      simp only [beval] at heq
      have hab : a = b ∧ beval t = beval s := by omega
      rw [hab.1, ih s (by simpa using hlen) (fun x hx => h1 x (by simp [hx]))
        (fun x hx => h2 x (by simp [hx])) hab.2]

/-- The `k` little-endian base-256 digits of `n`. -/
def decodeLE : Nat → Nat → List Nat
  | 0, _ => []
  | k + 1, n => n % 256 :: decodeLE k (n / 256)

lemma decodeLE_length : ∀ (k n : Nat), (decodeLE k n).length = k := by
  intro k
  induction k with
  | zero => intro n; rfl
  | succ k ih => intro n; simp [decodeLE, ih]

lemma beval_decodeLE : ∀ (k n : Nat), n < 256 ^ k →
    beval (decodeLE k n) = n := by
  intro k
  induction k with
  | zero =>
    intro n h
    interval_cases n
    rfl
  | succ k ih =>
    intro n h
    have hdiv : n / 256 < 256 ^ k := by
      rw [Nat.div_lt_iff_lt_mul (by norm_num)]
      calc n < 256 ^ (k + 1) := h
        _ = 256 ^ k * 256 := by rw [pow_succ]
    simp only [decodeLE, beval, ih (n / 256) hdiv]
    omega

set_option maxHeartbeats 1000000 in
/-- HMAC-SHA256 with any fixed key is not injective: among the `2 ^ 256 + 1`
distinct 33-byte messages, two collide by pigeonhole, since digests carry at
most 256 bits.  The witness pair is not computable in practice — which is
exactly why the (nonconstructive) pigeonhole argument is the only honest
proof. -/
theorem hmac_collision (key : List Nat) :
    ∃ b b2 : List Nat, b.length = b2.length ∧ b ≠ b2 ∧
      hmacSha256Hex key b = hmacSha256Hex key b2 := by
  have hNpow : (256 : Nat) ^ 32 = 2 ^ 256 := by norm_num
  have hbound : ∀ m : List Nat, beval (hmacSha256 key m) < 2 ^ 256 := by
    intro m
    have h1 := beval_lt (hmacSha256 key m) (hmacSha256_lt key m)
    rwa [hmacSha256_length, hNpow] at h1
  obtain ⟨i, j, hne, hfeq⟩ :=
    Fintype.exists_ne_map_eq_of_card_lt
      (fun i : Fin (2 ^ 256 + 1) =>
        (⟨beval (hmacSha256 key (decodeLE 33 i.val)), hbound _⟩ :
          Fin (2 ^ 256)))
      (by rw [Fintype.card_fin, Fintype.card_fin]; exact Nat.lt_succ_self _)
  simp only [Fin.mk.injEq] at hfeq
  have hbig : (2 : Nat) ^ 256 + 1 ≤ 256 ^ 33 := by norm_num
  refine ⟨decodeLE 33 i.val, decodeLE 33 j.val, by simp [decodeLE_length],
    ?_, ?_⟩
  · intro hcontra
    apply hne
    have hv := congrArg beval hcontra
    rw [beval_decodeLE 33 i.val (lt_of_lt_of_le i.isLt hbig),
      beval_decodeLE 33 j.val (lt_of_lt_of_le j.isLt hbig)] at hv
    exact Fin.ext hv
  · have hb : hmacSha256 key (decodeLE 33 i.val) =
        hmacSha256 key (decodeLE 33 j.val) :=
      beval_inj (hmacSha256 key (decodeLE 33 i.val))
        (hmacSha256 key (decodeLE 33 j.val))
        (by rw [hmacSha256_length, hmacSha256_length])
        (hmacSha256_lt key _) (hmacSha256_lt key _) hfeq
    exact congrArg bytesToHex hb

/-- C4 (amended): with a key configured, verification succeeds exactly when
the signature equals the lowercase hex HMAC-SHA256 of the body under the
key; hence the genuine signature verifies, and any body whose digest under
the key differs from the signed body's digest is rejected.  (The claim's
stronger form — *every* body differing in a byte is rejected — is refuted
by `claim_C4_hmac_not_injective`.) -/
theorem claim_C4_signature_verification (key payload : List Nat)
    (signature : String) :
    (verify_webhook_signature (some key) payload signature = true ↔
      signature = hmacSha256Hex key payload) ∧
    verify_webhook_signature (some key) payload
      (hmacSha256Hex key payload) = true ∧
    (∀ payload2 : List Nat,
      hmacSha256Hex key payload2 ≠ hmacSha256Hex key payload →
      verify_webhook_signature (some key) payload2
        (hmacSha256Hex key payload) = false) := by
  refine ⟨?_, ?_, ?_⟩
  · simp only [verify_webhook_signature, beq_iff_eq]
    exact eq_comm
  · simp only [verify_webhook_signature, beq_self_eq_true]
  · intro payload2 hne
    simp only [verify_webhook_signature, beq_eq_false_iff_ne, ne_eq]
    exact hne

/-- Counterexample to C4 as stated: for the configured key `[107]` there are
two bodies of equal length differing in at least one byte such that the
signature computed on the first verifies against the second — HMAC-SHA256
collides somewhere on 33-byte messages by pigeonhole, so "any body
differing in at least one byte returns false" is false. -/
theorem claim_C4_hmac_not_injective :
    ∃ body body2 : List Nat, body.length = body2.length ∧ body ≠ body2 ∧
      verify_webhook_signature (some [107]) body2
        (hmacSha256Hex [107] body) = true := by
  obtain ⟨b, b2, hlen, hne, hhex⟩ := hmac_collision [107]
  exact ⟨b, b2, hlen, hne, by simp only [verify_webhook_signature, hhex,
    beq_self_eq_true]⟩

set_option maxRecDepth 10000 in
/-- Concrete instance of amended C4: with key byte `"k"`, the signature of
`"abc"` verifies against `"abc"` and is rejected against `"abd"` (their
digests differ — checked by evaluation). -/
theorem claim_C4_signature_verification_witness :
    verify_webhook_signature (some [107]) [97, 98, 99]
      (hmacSha256Hex [107] [97, 98, 99]) = true ∧
    verify_webhook_signature (some [107]) [97, 98, 100]
      (hmacSha256Hex [107] [97, 98, 99]) = false :=
  ⟨(claim_C4_signature_verification [107] [97, 98, 99] "").2.1,
   (claim_C4_signature_verification [107] [97, 98, 99] "").2.2 [97, 98, 100]
     (by decide)⟩
